import Mathlib

/-!
Verification of the gramphibian changelog generator
(`src/lib/github-diff-generator.ts`).

JavaScript strings are modelled as `List Char` (`Str`); the JS helpers
`split`, `join`, `substring(0, n)` and first-occurrence `replace` are
embedded below, then the pipeline functions (`parseGitHubUrl`,
`getAllCommits`, `getRepoDiff`, `truncateDiffs`, provider selection and
the `generateChangelog` orchestration) are translated from the source,
and the specification properties are proved or refuted about them.
-/

set_option autoImplicit false

namespace Gramphibian

/-- JS strings as sequences of characters. -/
abbrev Str := List Char

/-- The newline character used by the diff formatting and truncation code. -/
def nl : Char := '\n'

/-- JS `s.split(sep)` for a single-character separator: splits at every
occurrence, keeping empty segments (`"".split` gives `[""]`). -/
def splitOnChar (sep : Char) : Str → List Str
  | [] => [[]]
  | c :: cs =>
    match splitOnChar sep cs with
    | [] => [[]]
    | r :: rs => if c = sep then [] :: r :: rs else (c :: r) :: rs

/-- JS `parts.join(sep)`: empty list gives `""`, otherwise interleaves
the separator between the parts. -/
def joinWith (sep : Str) : List Str → Str
  | [] => []
  | [x] => x
  | x :: y :: ys => x ++ sep ++ joinWith sep (y :: ys)

/-- JS `s.replace(pat, '')` with a string pattern: removes the first
occurrence of `pat` from `s` (and leaves `s` unchanged if `pat` does not
occur). -/
def replFirst (pat : Str) : Str → Str
  | [] => []
  | c :: cs =>
    if pat.isPrefixOf (c :: cs) then (c :: cs).drop pat.length
    else c :: replFirst pat cs

/-- JS truthiness of a `string | null | undefined` value: `none` and the
empty string are falsy. -/
def strTruthy : Option Str → Bool
  | none => false
  | some s => !s.isEmpty

/-- Decimal rendering of a natural number, as produced by JS template
interpolation of a nonnegative integer. -/
def natToStr (n : Nat) : Str := (Nat.repr n).data

/-- Decimal rendering of an integer (possibly negative), as produced by JS
template interpolation. -/
def intToStr (i : Int) : Str := (Int.repr i).data

/-- `MAX_PER_PAGE` from the source: GitHub page size. -/
def MAX_PER_PAGE : Nat := 100

/-- `MAX_TOTAL_COMMITS` from the source: the commit-fetch ceiling. -/
def MAX_TOTAL_COMMITS : Nat := 3000

/-- `MAX_TOKENS` from the source (revision at lines 1-461). -/
def MAX_TOKENS : Nat := 6000

/-- `CHARS_PER_TOKEN` from the source. -/
def CHARS_PER_TOKEN : Nat := 4

/-- `MAX_DIFF_LENGTH = MAX_TOKENS * CHARS_PER_TOKEN = 24000`. -/
def MAX_DIFF_LENGTH : Nat := MAX_TOKENS * CHARS_PER_TOKEN

/-- The blank-line separator `"\n\n"` used to join diff blocks. -/
def sepNN : Str := [nl, nl]

/-- Per-block truncation from `truncateDiffs` (source lines 227-233): keep
the first three newline-delimited lines (the commit header), keep at most
200 characters of the remaining content, and append a
`"\n... (truncated)"` marker when content was cut. -/
def truncBlock (d : Str) : Str :=
  let sections := splitOnChar nl d
  let commitInfo := joinWith [nl] (sections.take 3)
  let content := joinWith [nl] (sections.drop 3)
  let truncatedContent := content.take 200
  commitInfo ++ [nl] ++ truncatedContent ++
    (if 200 < content.length then ("\n... (truncated)").data else [])

/-- `truncateDiffs` (source lines 214-244): tier 1 returns the joined text
when within `MAX_DIFF_LENGTH`; tier 2 truncates within each block; tier 3
keeps only the first `MAX_DIFF_LENGTH / 400` truncated blocks and appends
an omission note computed with JS number subtraction. -/
def truncateDiffs (diffs : List Str) : Str :=
  let fullText := joinWith sepNN diffs
  if fullText.length ≤ MAX_DIFF_LENGTH then fullText
  else
    let truncatedDiffs := diffs.map truncBlock
    let result := joinWith sepNN truncatedDiffs
    if MAX_DIFF_LENGTH < result.length then
      let maxDiffs := MAX_DIFF_LENGTH / 400
      joinWith sepNN (truncatedDiffs.take maxDiffs) ++
        ("\n\n... (").data ++ intToStr ((diffs.length : Int) - (maxDiffs : Int)) ++
        (" more changes)").data
    else result

/-- One changed file inside a commit-detail response; `patch` is absent for
binary or oversized files (`patch?: string`). -/
structure CommitFile where
  filename : Str
  patch : Option Str
deriving DecidableEq

/-- Aggregate stats of one commit. -/
structure CommitStats where
  additions : Nat
  deletions : Nat
  total : Nat
deriving DecidableEq

/-- One fetched commit (`CommitData` in the source). The author date is
kept as its already-formatted `yyyy-MM-dd HH:mm:ss` rendering, since date
formatting is done by the external date-fns library. -/
structure CommitData where
  stats : CommitStats
  files : List CommitFile
  message : Str
  dateFormatted : Str
  sha : Str
deriving DecidableEq

/-- One page of the hosting API commit-list endpoint: up to `MAX_PER_PAGE`
commits (already resolved to their detail records) plus whether the
response carried a link header containing a rel next marker. -/
structure PageResp where
  commits : List CommitData
  hasNext : Bool
deriving DecidableEq

/-- The loop of `getAllCommits` (source lines 179-212): while the link
header says more pages exist and fewer than `MAX_TOTAL_COMMITS` commits
are accumulated, fetch the next page and append its commits. The page
stream is the sequence of responses the hosting API would give. -/
def getAllCommitsLoop : List PageResp → List CommitData → List CommitData
  | [], acc => acc
  | pg :: rest, acc =>
    if acc.length < MAX_TOTAL_COMMITS then
      let acc2 := acc ++ pg.commits
      if pg.hasNext then getAllCommitsLoop rest acc2 else acc2
    else acc

/-- `getAllCommits`: run the pagination loop from an empty accumulator. -/
def getAllCommits (pages : List PageResp) : List CommitData :=
  getAllCommitsLoop pages []

/-- `DiffSummary` (source lines 62-73), with the period kept as the two
formatted date strings. -/
structure DiffSummary where
  additions : Nat
  deletions : Nat
  netDiff : Int
  diffs : List Str
  totalCommits : Nat
  hasMore : Bool
  periodStart : Str
  periodEnd : Str
deriving DecidableEq

/-- The diff block pushed for one file of one commit (source lines
359-363): abbreviated SHA, formatted date, message, filename and raw
patch, newline-separated in that order. -/
def diffBlock (c : CommitData) (f : CommitFile) (p : Str) : Str :=
  ("Commit: ").data ++ c.sha.take 7 ++ (" - ").data ++ c.dateFormatted ++ [nl] ++
    ("Message: ").data ++ c.message ++ [nl] ++
    ("File: ").data ++ f.filename ++ [nl] ++ p

/-- The summary construction of `getRepoDiff` (source lines 339-368):
sum the commit stats, collect one diff block per file with a truthy
patch (commit order, then file order), set `totalCommits`, `hasMore` and
finally `netDiff = additions - deletions`. -/
def buildDiffSummary (commits : List CommitData) (startStr endStr : Str) : DiffSummary :=
  let additions := (commits.map (fun c => c.stats.additions)).sum
  let deletions := (commits.map (fun c => c.stats.deletions)).sum
  { additions := additions
    deletions := deletions
    netDiff := (additions : Int) - (deletions : Int)
    diffs := commits.flatMap (fun c =>
      c.files.filterMap (fun f =>
        match f.patch with
        | some p => if p.isEmpty then none else some (diffBlock c f p)
        | none => none))
    totalCommits := commits.length
    hasMore := decide (MAX_TOTAL_COMMITS ≤ commits.length)
    periodStart := startStr
    periodEnd := endStr }

/-- `getRepoDiff` (source lines 327-387) restricted to its pure part:
fetch all commits from the page stream and build the summary. -/
def getRepoDiff (pages : List PageResp) (startStr endStr : Str) : DiffSummary :=
  buildDiffSummary (getAllCommits pages) startStr endStr

/-- Result of `parseGitHubUrl`: `owner` is `none` when the split produced
a single segment, mirroring the JS out-of-range index yielding
`undefined`. -/
structure ParsedUrl where
  owner : Option Str
  repo : Str
deriving DecidableEq

/-- The literal host prefix stripped by `parseGitHubUrl`. -/
def ghPrefix : Str := ("https://github.com/").data

/-- The literal pattern removed from the repository segment. -/
def dotGit : Str := (".git").data

/-- `parseGitHubUrl` (source lines 171-177): strip the first occurrence of
the host prefix, split on `/`, take the last two segments as owner and
repo, removing the first occurrence of `.git` from the repo segment. -/
def parseGitHubUrl (repoUrl : Str) : ParsedUrl :=
  let parts := splitOnChar '/' (replFirst ghPrefix repoUrl)
  { owner := if 2 ≤ parts.length then parts.get? (parts.length - 2) else none
    repo := replFirst dotGit (parts.getLastD []) }

/-- The provider selected by `selectLLMProvider`. -/
inductive Provider where
  | openai
  | greptile
deriving DecidableEq

/-- The environment flags read by the generator: `ENABLE_GREPTILE` and
`ENABLE_OPENAI` compared against the literal string `true`. -/
structure EnvCfg where
  enableGreptile : Bool
  enableOpenai : Bool
deriving DecidableEq

/-- `indexedRepos` (source lines 82-86): the fixed allow-list. -/
def indexedRepos : List Str :=
  [("facebook/react").data, ("microsoft/vscode").data, ("rstudio/marimo").data]

/-- The `owner/repo` string built by `selectLLMProvider` via template
interpolation; a JS `undefined` owner renders as the text `undefined`. -/
def fullRepoName (repoUrl : Str) : Str :=
  let p := parseGitHubUrl repoUrl
  (p.owner.getD (("undefined").data)) ++ ['/'] ++ p.repo

/-- The configuration-error message thrown when no provider is enabled. -/
def noProviderMsg : Str :=
  ("No LLM provider enabled. Set either ENABLE_GREPTILE=true or ENABLE_OPENAI=true").data

/-- `selectLLMProvider` (source lines 103-118): the repository-aware
provider when the repo is allow-listed and enabled, else OpenAI when
enabled, else a configuration error. -/
def selectLLMProvider (env : EnvCfg) (repoUrl : Str) : Except Str Provider :=
  if indexedRepos.contains (fullRepoName repoUrl) && env.enableGreptile then
    Except.ok Provider.greptile
  else if env.enableOpenai then Except.ok Provider.openai
  else Except.error noProviderMsg

/-- The substitute text used by `generateWithOpenAI` when the completion
content is falsy. -/
def openaiFallback : Str := ("No changelog generated").data

/-- The OpenAI attribution footer appended by revision 1. -/
def openaiFooter : Str := ("\n\n_Generated with: OpenAI GPT-4_").data

/-- `generateWithOpenAI` (source lines 246-269) with the provider response
content as input (`diffText` is the request payload and does not influence
the handling of the response): fails when the client was never initialized
(OpenAI not enabled), otherwise substitutes fallback text for a falsy
content and appends the attribution footer. -/
def generateWithOpenAI (env : EnvCfg) (_diffText : Str) (content : Option Str) : Except Str Str :=
  if !env.enableOpenai then Except.error (("OpenAI client not initialized").data)
  else
    let changelog := if strTruthy content then content.getD [] else openaiFallback
    Except.ok (changelog ++ openaiFooter)

/-- The empty-response error of `generateWithGreptile`. -/
def greptileEmptyMsg : Str := ("No changelog content received from Greptile").data

/-- The Greptile attribution footer appended by revision 1. -/
def greptileFooter : Str := ("\n\n_Generated with: Greptile_").data

/-- `generateWithGreptile` (source lines 271-325) with the transport
outcome and response message as input (`diffText` is the request payload):
a non-2xx response or a falsy `message` field is a hard error, otherwise
the message is returned with the attribution footer. -/
def generateWithGreptile (_diffText : Str) (httpOk : Bool) (message : Option Str) : Except Str Str :=
  if !httpOk then Except.error (("Greptile API request failed").data)
  else if !(strTruthy message) then Except.error greptileEmptyMsg
  else Except.ok (message.getD [] ++ greptileFooter)

/-- `submitToGramaphone` (source lines 120-160) with the downstream
outcome as input: a non-2xx response is rethrown as an error. -/
def submitToGramaphone (publishOk : Bool) : Except Str Unit :=
  if publishOk then Except.ok ()
  else Except.error (("Failed to submit to Gramaphone").data)

/-- The warning prefix used when the commit ceiling was hit (source lines
405-412). -/
def warningText : Str :=
  ("\n⚠️ Note: This changelog only includes the first ").data ++
    natToStr MAX_TOTAL_COMMITS ++
    (" commits due to GitHub API limitations. \nThe actual number of changes during this period may be larger.\n\n").data

/-- All external outcomes a `generateChangelog` run depends on: the
environment flags, each provider response, and whether publishing
succeeds. -/
structure RunCfg where
  env : EnvCfg
  openaiContent : Option Str
  greptileOk : Bool
  greptileMessage : Option Str
  publishOk : Bool
deriving DecidableEq

/-- Result of a successful run: the returned changelog and whether a
publish request was issued. -/
structure RunResult where
  changelog : Str
  publishAttempted : Bool
deriving DecidableEq

/-- `generateChangelog` (source lines 389-460): fetch, aggregate,
truncate, prepend the ceiling warning, select and invoke the provider,
then - only when asked to publish - call the publisher, whose failure is
caught and logged rather than rethrown. -/
def generateChangelog (cfg : RunCfg) (repoUrl : Str) (pages : List PageResp)
    (startStr endStr : Str) (shouldPublish : Bool) : Except Str RunResult :=
  let diff := getRepoDiff pages startStr endStr
  let truncatedDiffText := truncateDiffs diff.diffs
  let warningMessage := if diff.hasMore then warningText else []
  match selectLLMProvider cfg.env repoUrl with
  | Except.error e => Except.error e
  | Except.ok p =>
    let gen := match p with
      | Provider.openai => generateWithOpenAI cfg.env truncatedDiffText cfg.openaiContent
      | Provider.greptile =>
        generateWithGreptile truncatedDiffText cfg.greptileOk cfg.greptileMessage
    match gen with
    | Except.error e => Except.error e
    | Except.ok changelogContent =>
      let finalChangelog := warningMessage ++ changelogContent
      if shouldPublish then
        match submitToGramaphone cfg.publishOk with
        | Except.ok _ => Except.ok ⟨finalChangelog, true⟩
        | Except.error _ => Except.ok ⟨finalChangelog, true⟩
      else Except.ok ⟨finalChangelog, false⟩

/-- The provider configuration of the revision at source lines 461-855,
which resolves the provider once at construction and has a `none` mock
variant. -/
inductive ProviderV2 where
  | openai
  | greptile
  | noneP
deriving DecidableEq

/-- The constructor logic of that revision (source lines 543-561):
OpenAI wins when enabled, else Greptile when enabled, else the mock. -/
def llmProviderV2 (env : EnvCfg) : ProviderV2 :=
  if env.enableOpenai then ProviderV2.openai
  else if env.enableGreptile then ProviderV2.greptile
  else ProviderV2.noneP

/-- `generateWithOpenAI` of that revision (source lines 658-680): same
falsy-content substitution, but no attribution footer. -/
def generateWithOpenAIV2 (env : EnvCfg) (_diffText : Str) (content : Option Str) :
    Except Str Str :=
  if !env.enableOpenai then Except.error (("OpenAI client not initialized").data)
  else Except.ok (if strTruthy content then content.getD [] else openaiFallback)

/-- `generateWithGreptile` of that revision (source lines 682-711): only
the transport status is checked; the `message` field is returned as-is,
a JS `undefined` rendering as the text `undefined` once concatenated. -/
def generateWithGreptileV2 (_diffText : Str) (httpOk : Bool) (message : Option Str) :
    Except Str Str :=
  if !httpOk then Except.error (("Failed to generate changelog").data)
  else Except.ok (message.getD (("undefined").data))

/-- The templated mock preview of that revision (source lines 825-838),
with the date-fns-formatted period bounds passed in as strings. -/
def previewTemplate (startStr endStr : Str) (diff : DiffSummary)
    (truncatedDiffText : Str) : Str :=
  ("LLM DISABLED - Sample Changelog\n          \nChanges between ").data ++
    startStr ++ (" and ").data ++ endStr ++
    (":\n\nTotal Changes:\n- ").data ++ natToStr diff.additions ++
    (" additions\n- ").data ++ natToStr diff.deletions ++
    (" deletions\n- Net change: ").data ++ intToStr diff.netDiff ++
    (" lines\n- Total commits analyzed: ").data ++ natToStr diff.totalCommits ++
    ("\n\nSample of changes:\n").data ++ truncatedDiffText.take 1000 ++
    ("...\n\nNote: This is a preview. Enable an LLM by setting either ENABLE_GREPTILE=true or ENABLE_OPENAI=true in your environment.").data

/-- `generateChangelog` of that revision (source lines 787-855): same
fetch/aggregate/truncate pipeline and ceiling warning, but the provider
comes from the constructor and the `none` mock emits the templated
preview without any provider call. The boolean in the result records
whether a provider backend was invoked. -/
def generateChangelogV2 (cfg : RunCfg) (pages : List PageResp)
    (startStr endStr : Str) : Except Str (Str × Bool) :=
  let diff := getRepoDiff pages startStr endStr
  let truncatedDiffText := truncateDiffs diff.diffs
  let warningMessage := if diff.hasMore then warningText else []
  match llmProviderV2 cfg.env with
  | ProviderV2.openai =>
    match generateWithOpenAIV2 cfg.env truncatedDiffText cfg.openaiContent with
    | Except.error e => Except.error e
    | Except.ok c => Except.ok (warningMessage ++ c, true)
  | ProviderV2.greptile =>
    match generateWithGreptileV2 truncatedDiffText cfg.greptileOk cfg.greptileMessage with
    | Except.error e => Except.error e
    | Except.ok c => Except.ok (warningMessage ++ c, true)
  | ProviderV2.noneP =>
    Except.ok (warningMessage ++ previewTemplate startStr endStr diff truncatedDiffText, false)

/-- C3 counterexample input: a first page of 99 commits followed by
thirty full pages of 100, every page advertising a next page. -/
def cexCommit : CommitData :=
  { stats := ⟨0, 0, 0⟩, files := [], message := [], dateFormatted := [], sha := [] }

/-- The page stream on which the fetch overshoots the commit ceiling. -/
def cexPages : List PageResp :=
  ⟨List.replicate 99 cexCommit, true⟩ ::
    List.replicate 30 (⟨List.replicate 100 cexCommit, true⟩ : PageResp)

/-- A diff block used as the C1 amended witness: a three-line header plus
a 300-character content line, which the per-block pass shrinks. -/
def wBlock : Str := ("h\nh\nh\n").data ++ List.replicate 300 'a'

/-- Configuration for the C9 witness: neither provider enabled. -/
def c9cfg : RunCfg :=
  { env := ⟨false, false⟩, openaiContent := none, greptileOk := true,
    greptileMessage := none, publishOk := true }

/-- Page stream for the C9 witness: one page, one commit, one patched
file, no continuation. -/
def c9pages : List PageResp :=
  [⟨[{ stats := ⟨10, 4, 14⟩,
       files := [⟨("a.ts").data, some (("p").data)⟩],
       message := ("msg").data,
       dateFormatted := ("2024-01-02 03:04:05").data,
       sha := ("abcdef012345").data }], false⟩]

/-! ### Helper lemmas -/

theorem joinWith_singleton (sep x : Str) : joinWith sep [x] = x := rfl

theorem splitOnChar_ne_nil (sep : Char) (s : Str) : splitOnChar sep s ≠ [] := by
  cases s with
  | nil => simp [splitOnChar]
  | cons c cs =>
    unfold splitOnChar
    cases h : splitOnChar sep cs with
    | nil => simp
    | cons r rs => by_cases hc : c = sep <;> simp [hc]

theorem splitOnChar_no_sep (sep : Char) (s : Str) (h : sep ∉ s) :
    splitOnChar sep s = [s] := by
  induction s with
  | nil => rfl
  | cons c cs ih =>
    have hc : c ≠ sep := fun hcs => h (hcs ▸ List.mem_cons_self c cs)
    have hcs : sep ∉ cs := fun hm => h (List.mem_cons_of_mem c hm)
    unfold splitOnChar
    rw [ih hcs]
    simp [hc]

/-! ### C2, C4, C5 -/

/-- C2: every `DiffSummary` produced by `getRepoDiff` satisfies
`netDiff = additions - deletions`, and `hasMore` is true exactly when
`totalCommits` reached `MAX_TOTAL_COMMITS = 3000`, for every sequence of
fetched pages. -/
theorem getRepoDiff_invariants (pages : List PageResp) (startStr endStr : Str) :
    (getRepoDiff pages startStr endStr).netDiff =
      ((getRepoDiff pages startStr endStr).additions : Int) -
        ((getRepoDiff pages startStr endStr).deletions : Int) ∧
    ((getRepoDiff pages startStr endStr).hasMore = true ↔
      MAX_TOTAL_COMMITS ≤ (getRepoDiff pages startStr endStr).totalCommits) := by
  refine ⟨rfl, ?_⟩
  simp [getRepoDiff, buildDiffSummary]

/-- C4: on any non-empty diff-block sequence whose joined text is within
the `MAX_DIFF_LENGTH` ceiling, `truncateDiffs` is the identity on the
joined text. -/
theorem truncateDiffs_identity (diffs : List Str) (_hne : diffs ≠ [])
    (hlen : (joinWith sepNN diffs).length ≤ MAX_DIFF_LENGTH) :
    truncateDiffs diffs = joinWith sepNN diffs := by
  unfold truncateDiffs
  simp [hlen]

/-- C4 witness: a concrete one-block sequence under the ceiling is
returned unchanged. -/
theorem truncateDiffs_identity_witness :
    ([(['a'] : Str)] ≠ ([] : List Str)) ∧
      (joinWith sepNN [(['a'] : Str)]).length ≤ MAX_DIFF_LENGTH ∧
      truncateDiffs [(['a'] : Str)] = joinWith sepNN [(['a'] : Str)] :=
  ⟨by decide, by decide, truncateDiffs_identity _ (by decide) (by decide)⟩

/-- C5: the output of `truncateDiffs` always renders a leading prefix of
the input blocks in input order: either all blocks verbatim, or all
blocks each internally truncated, or only the first
`MAX_DIFF_LENGTH / 400` internally-truncated blocks followed by the
omission note. -/
theorem truncateDiffs_prefix_structure (diffs : List Str) :
    truncateDiffs diffs = joinWith sepNN diffs ∨
    truncateDiffs diffs = joinWith sepNN (diffs.map truncBlock) ∨
    truncateDiffs diffs =
      joinWith sepNN ((diffs.map truncBlock).take (MAX_DIFF_LENGTH / 400)) ++
        ("\n\n... (").data ++
        intToStr ((diffs.length : Int) - ((MAX_DIFF_LENGTH / 400 : Nat) : Int)) ++
        (" more changes)").data := by
  unfold truncateDiffs
  dsimp only
  split_ifs with h1 h2
  · exact Or.inl rfl
  · exact Or.inr (Or.inr rfl)
  · exact Or.inr (Or.inl rfl)

/-! ### C6 -/

/-- C6: `selectLLMProvider` returns the repository-aware provider exactly
when the parsed `owner/repo` name is allow-listed and `ENABLE_GREPTILE`
is set; otherwise it returns OpenAI when `ENABLE_OPENAI` is set, and
fails with the configuration error when neither provider is enabled. -/
theorem selectLLMProvider_spec (env : EnvCfg) (repoUrl : Str) :
    (selectLLMProvider env repoUrl = Except.ok Provider.greptile ↔
      indexedRepos.contains (fullRepoName repoUrl) = true ∧ env.enableGreptile = true) ∧
    (¬(indexedRepos.contains (fullRepoName repoUrl) = true ∧ env.enableGreptile = true) →
      env.enableOpenai = true →
      selectLLMProvider env repoUrl = Except.ok Provider.openai) ∧
    (¬(indexedRepos.contains (fullRepoName repoUrl) = true ∧ env.enableGreptile = true) →
      env.enableOpenai = false →
      selectLLMProvider env repoUrl = Except.error noProviderMsg) := by
  obtain ⟨g, o⟩ := env
  cases hc : indexedRepos.contains (fullRepoName repoUrl) <;>
    cases g <;> cases o <;>
    simp_all [selectLLMProvider]

/-- C6 witness: with neither flag set the selector fails with the
configuration error, and an allow-listed repository with the Greptile
flag set selects the repository-aware provider. -/
theorem selectLLMProvider_spec_witness :
    selectLLMProvider ⟨false, false⟩ (("https://github.com/foo/bar").data) =
      Except.error noProviderMsg ∧
    selectLLMProvider ⟨true, false⟩ (("https://github.com/facebook/react").data) =
      Except.ok Provider.greptile :=
  ⟨(selectLLMProvider_spec ⟨false, false⟩ _).2.2 (by decide) rfl,
   (selectLLMProvider_spec ⟨true, false⟩ _).1.mpr ⟨by decide, rfl⟩⟩

/-! ### C8 -/

theorem generateChangelog_publishOk_irrel (cfg : RunCfg) (b₁ b₂ : Bool)
    (repoUrl : Str) (pages : List PageResp) (startStr endStr : Str) (sp : Bool) :
    generateChangelog { cfg with publishOk := b₁ } repoUrl pages startStr endStr sp =
      generateChangelog { cfg with publishOk := b₂ } repoUrl pages startStr endStr sp := by
  unfold generateChangelog
  dsimp only
  cases selectLLMProvider cfg.env repoUrl with
  | error e => rfl
  | ok p =>
    cases p with
    | openai =>
      cases generateWithOpenAI cfg.env
          (truncateDiffs (getRepoDiff pages startStr endStr).diffs) cfg.openaiContent with
      | error e => rfl
      | ok c =>
        cases sp with
        | false => rfl
        | true =>
          cases submitToGramaphone b₁ <;> cases submitToGramaphone b₂ <;> rfl
    | greptile =>
      cases generateWithGreptile
          (truncateDiffs (getRepoDiff pages startStr endStr).diffs) cfg.greptileOk
          cfg.greptileMessage with
      | error e => rfl
      | ok c =>
        cases sp with
        | false => rfl
        | true =>
          cases submitToGramaphone b₁ <;> cases submitToGramaphone b₂ <;> rfl

/-- C8: when fetch, truncation and generation succeed but the publish
call fails, `generateChangelog` still returns normally with the same
changelog string a successful publish would have produced; the failure is
swallowed. -/
theorem generateChangelog_publish_failure_ignored (cfg : RunCfg) (repoUrl : Str)
    (pages : List PageResp) (startStr endStr : Str) (c : Str)
    (h : generateChangelog { cfg with publishOk := true } repoUrl pages startStr endStr true =
      Except.ok ⟨c, true⟩) :
    generateChangelog { cfg with publishOk := false } repoUrl pages startStr endStr true =
      Except.ok ⟨c, true⟩ :=
  (generateChangelog_publishOk_irrel cfg false true repoUrl pages startStr endStr true).trans h

/-- C8 witness: a concrete run (OpenAI enabled, response present, no
commits) returns the same changelog whether publishing succeeds or is
rejected downstream. -/
theorem generateChangelog_publish_failure_ignored_witness :
    generateChangelog
        { env := ⟨false, true⟩, openaiContent := some (("hello").data),
          greptileOk := true, greptileMessage := none, publishOk := true }
        (("https://github.com/foo/bar").data) [] [] [] true =
      Except.ok ⟨("hello").data ++ openaiFooter, true⟩ ∧
    generateChangelog
        { env := ⟨false, true⟩, openaiContent := some (("hello").data),
          greptileOk := true, greptileMessage := none, publishOk := false }
        (("https://github.com/foo/bar").data) [] [] [] true =
      Except.ok ⟨("hello").data ++ openaiFooter, true⟩ := by
  refine ⟨rfl, ?_⟩
  exact generateChangelog_publish_failure_ignored
    { env := ⟨false, true⟩, openaiContent := some (("hello").data),
      greptileOk := true, greptileMessage := none, publishOk := true }
    (("https://github.com/foo/bar").data) [] [] [] _ rfl

/-! ### C7 -/

/-- C7 counterexample: with the general-purpose provider selected and an
empty response content, generation does not fail - the empty content is
silently replaced by the substitute text and the publish attempt still
happens. -/
theorem generateChangelog_empty_openai_cex :
    strTruthy (some ([] : Str)) = false ∧
    generateChangelog
        { env := ⟨false, true⟩, openaiContent := some [], greptileOk := true,
          greptileMessage := none, publishOk := true }
        (("https://github.com/foo/bar").data) [] [] [] true =
      Except.ok ⟨openaiFallback ++ openaiFooter, true⟩ :=
  ⟨rfl, rfl⟩

/-- C7 amended: an empty or missing Greptile `message` is a hard failure
with the no-content-received error and no publish attempt, while an empty
or missing OpenAI content is silently replaced by the substitute text and
the run continues (publishing when requested). -/
theorem providers_empty_response_behaviour (cfg : RunCfg) (repoUrl : Str)
    (pages : List PageResp) (startStr endStr : Str) (sp : Bool) :
    (selectLLMProvider cfg.env repoUrl = Except.ok Provider.greptile →
      cfg.greptileOk = true → strTruthy cfg.greptileMessage = false →
      generateChangelog cfg repoUrl pages startStr endStr sp =
        Except.error greptileEmptyMsg) ∧
    (selectLLMProvider cfg.env repoUrl = Except.ok Provider.openai →
      cfg.env.enableOpenai = true → strTruthy cfg.openaiContent = false →
      generateChangelog cfg repoUrl pages startStr endStr sp =
        Except.ok ⟨(if (getRepoDiff pages startStr endStr).hasMore then warningText
            else []) ++ (openaiFallback ++ openaiFooter), sp⟩) := by
  constructor
  · intro hsel hok hempty
    unfold generateChangelog
    rw [hsel]
    unfold generateWithGreptile
    rw [hok, hempty]
    rfl
  · intro hsel hoai hempty
    unfold generateChangelog
    rw [hsel]
    unfold generateWithOpenAI
    rw [hoai, hempty]
    dsimp only
    cases sp with
    | false => rfl
    | true => cases h : submitToGramaphone cfg.publishOk <;> rfl

/-- C7 amended witness: a Greptile run over an allow-listed repository
with an empty message fails with the no-content error, and an OpenAI run
with an empty content returns the substitute text. -/
theorem providers_empty_response_behaviour_witness :
    generateChangelog
        { env := ⟨true, false⟩, openaiContent := none, greptileOk := true,
          greptileMessage := some [], publishOk := true }
        (("https://github.com/facebook/react").data) [] [] [] true =
      Except.error greptileEmptyMsg ∧
    generateChangelog
        { env := ⟨false, true⟩, openaiContent := none, greptileOk := true,
          greptileMessage := none, publishOk := true }
        (("https://github.com/foo/bar").data) [] [] [] false =
      Except.ok ⟨(if (getRepoDiff [] [] []).hasMore then warningText else []) ++
        (openaiFallback ++ openaiFooter), false⟩ :=
  ⟨(providers_empty_response_behaviour _ _ _ _ _ _).1 rfl rfl rfl,
   (providers_empty_response_behaviour _ _ _ _ _ _).2 rfl rfl rfl⟩

/-! ### C3 -/

theorem getAllCommitsLoop_le (pages : List PageResp) (acc : List CommitData)
    (hp : ∀ p ∈ pages, p.commits.length ≤ MAX_PER_PAGE)
    (ha : acc.length ≤ MAX_TOTAL_COMMITS + MAX_PER_PAGE - 1) :
    (getAllCommitsLoop pages acc).length ≤ MAX_TOTAL_COMMITS + MAX_PER_PAGE - 1 := by
  induction pages generalizing acc with
  | nil => simpa [getAllCommitsLoop] using ha
  | cons pg rest ih =>
    unfold getAllCommitsLoop
    by_cases hlt : acc.length < MAX_TOTAL_COMMITS
    · have hpg : pg.commits.length ≤ MAX_PER_PAGE := hp pg (List.mem_cons_self _ _)
      have hacc2 : (acc ++ pg.commits).length ≤ MAX_TOTAL_COMMITS + MAX_PER_PAGE - 1 := by
        rw [List.length_append]
        have : 0 < MAX_PER_PAGE := by decide
        omega
      cases hnx : pg.hasNext with
      | true =>
        simpa [hlt, hnx] using
          ih (acc ++ pg.commits) (fun p hmem => hp p (List.mem_cons_of_mem _ hmem)) hacc2
      | false => simpa [hlt, hnx] using hacc2
    · simpa [hlt] using ha

set_option maxRecDepth 100000 in
/-- C3 counterexample: every page of this stream holds at most 100
commits, yet `getAllCommits` returns 3099 commits - more than the 3000
ceiling, because the ceiling is checked before a page of up to 100
commits is appended. -/
theorem getAllCommits_exceeds_ceiling_cex :
    (∀ p ∈ cexPages, p.commits.length ≤ MAX_PER_PAGE) ∧
    (getAllCommits cexPages).length = 3099 ∧
    ¬((getAllCommits cexPages).length ≤ MAX_TOTAL_COMMITS) := by
  refine ⟨by decide, by decide, by decide⟩

/-- C3 amended: for every page stream whose pages hold at most
`MAX_PER_PAGE` commits, `getAllCommits` returns at most
`MAX_TOTAL_COMMITS + MAX_PER_PAGE - 1 = 3099` commits; fetching stops
once the accumulated count reaches 3000 or a page has no continuation
signal, but the final count can overshoot 3000 by up to 99. -/
theorem getAllCommits_at_most (pages : List PageResp)
    (hp : ∀ p ∈ pages, p.commits.length ≤ MAX_PER_PAGE) :
    (getAllCommits pages).length ≤ MAX_TOTAL_COMMITS + MAX_PER_PAGE - 1 :=
  getAllCommitsLoop_le pages [] hp (by decide)

/-- C3 amended witness: a concrete two-page stream obeys the 3099 bound. -/
theorem getAllCommits_at_most_witness :
    (∀ p ∈ ([⟨List.replicate 100 cexCommit, true⟩, ⟨[cexCommit], false⟩] : List PageResp),
      p.commits.length ≤ MAX_PER_PAGE) ∧
    (getAllCommits [⟨List.replicate 100 cexCommit, true⟩, ⟨[cexCommit], false⟩]).length ≤
      MAX_TOTAL_COMMITS + MAX_PER_PAGE - 1 :=
  ⟨by decide, getAllCommits_at_most _ (by decide)⟩

/-! ### C1 -/

theorem splitOnChar_append_sep (sep : Char) (xs ys : Str) (h : sep ∉ xs) :
    splitOnChar sep (xs ++ sep :: ys) = xs :: splitOnChar sep ys := by
  induction xs with
  | nil =>
    cases hys : splitOnChar sep ys with
    | nil => exact absurd hys (splitOnChar_ne_nil sep ys)
    | cons r rs => simp [splitOnChar, hys]
  | cons c cs ih =>
    have hc : c ≠ sep := fun hcs => h (hcs ▸ List.mem_cons_self c cs)
    have hrec := ih (fun hm => h (List.mem_cons_of_mem c hm))
    simp only [List.cons_append]
    unfold splitOnChar
    rw [hrec]
    simp only [if_neg hc]
    rw [← splitOnChar.eq_def]

/-- Per-block truncation of a block with no newline keeps the whole block
as the header and only appends a newline. -/
theorem truncBlock_no_nl (s : Str) (h : nl ∉ s) : truncBlock s = s ++ [nl] := by
  unfold truncBlock
  rw [splitOnChar_no_sep nl s h]
  dsimp only
  rw [show List.take 3 [s] = [s] from rfl, show List.drop 3 [s] = ([] : List Str) from rfl]
  rw [show joinWith [nl] ([] : List Str) = [] from rfl]
  rw [show joinWith [nl] [s] = s from rfl]
  simp

/-- C1 counterexample: a single diff block consisting of one 30000
character line joins to more than the ceiling, but `truncateDiffs` keeps
the whole line as the block header and appends the omission note,
returning 30025 characters - above the 24000 ceiling. -/
theorem truncateDiffs_exceeds_ceiling_cex :
    MAX_DIFF_LENGTH < (joinWith sepNN [List.replicate 30000 'a']).length ∧
    ¬((truncateDiffs [List.replicate 30000 'a']).length ≤ MAX_DIFF_LENGTH) := by
  have hnl : nl ∉ List.replicate 30000 'a' := by
    simp only [List.mem_replicate]
    decide
  have h1 : joinWith sepNN [List.replicate 30000 'a'] = List.replicate 30000 'a' :=
    joinWith_singleton _ _
  have hTB : truncBlock (List.replicate 30000 'a') = List.replicate 30000 'a' ++ [nl] :=
    truncBlock_no_nl _ hnl
  constructor
  · rw [h1, List.length_replicate]
    decide
  · unfold truncateDiffs
    dsimp only
    rw [h1, List.length_replicate,
      if_neg (by decide : ¬((30000 : Nat) ≤ MAX_DIFF_LENGTH))]
    simp only [List.map_cons, List.map_nil, hTB]
    rw [joinWith_singleton, List.length_append, List.length_replicate]
    rw [if_pos (by decide : MAX_DIFF_LENGTH < 30000 + [nl].length)]
    rw [show List.take (MAX_DIFF_LENGTH / 400) [List.replicate 30000 'a' ++ [nl]] =
      [List.replicate 30000 'a' ++ [nl]] from rfl]
    rw [joinWith_singleton]
    rw [show List.length [List.replicate 30000 'a'] = 1 from List.length_singleton _]
    rw [List.length_append, List.length_append, List.length_append, List.length_append,
      List.length_replicate]
    have h2 : (("\n\n... (").data).length = 7 := by decide
    have h3 : (intToStr ((1 : Int) - ((MAX_DIFF_LENGTH / 400 : Nat) : Int))).length = 3 := by
      decide
    have h4 : ((" more changes)").data).length = 14 := by decide
    have h5 : ([nl] : Str).length = 1 := rfl
    have h6 : MAX_DIFF_LENGTH = 24000 := rfl
    omega

/-- C1 amended: when the joined diff text exceeds the ceiling but the
per-block truncation pass brings the rejoined text within the ceiling,
`truncateDiffs` returns that rejoined text, whose length is at most the
ceiling. (Without the second hypothesis the bound can fail: the
block-dropping tier keeps block headers verbatim and appends an omission
note past the budget, as the counterexample shows.) -/
theorem truncateDiffs_tier2_within_ceiling (diffs : List Str)
    (hover : MAX_DIFF_LENGTH < (joinWith sepNN diffs).length)
    (htrunc : (joinWith sepNN (diffs.map truncBlock)).length ≤ MAX_DIFF_LENGTH) :
    truncateDiffs diffs = joinWith sepNN (diffs.map truncBlock) ∧
    (truncateDiffs diffs).length ≤ MAX_DIFF_LENGTH := by
  have heq : truncateDiffs diffs = joinWith sepNN (diffs.map truncBlock) := by
    unfold truncateDiffs
    dsimp only
    rw [if_neg (by omega), if_neg (by omega)]
  exact ⟨heq, heq ▸ htrunc⟩

theorem joinWith_length_replicate (sep x : Str) (n : Nat) :
    (joinWith sep (List.replicate (n + 1) x)).length = (n + 1) * x.length + n * sep.length := by
  induction n with
  | zero => simp [joinWith_singleton]
  | succ m ih =>
    rw [List.replicate_succ]
    rw [show List.replicate (m + 1) x = x :: List.replicate m x from List.replicate_succ x m]
    rw [show joinWith sep (x :: x :: List.replicate m x) =
      x ++ sep ++ joinWith sep (x :: List.replicate m x) from rfl]
    rw [show (x :: List.replicate m x) = List.replicate (m + 1) x from
      (List.replicate_succ x m).symm]
    rw [List.length_append, List.length_append, ih]
    ring

set_option maxRecDepth 40000 in
/-- C1 amended witness: ninety such blocks join to 27718 characters
(over the ceiling) while their per-block truncations rejoin to 20158
characters, so `truncateDiffs` returns the tier-2 text within budget. -/
theorem truncateDiffs_tier2_within_ceiling_witness :
    MAX_DIFF_LENGTH < (joinWith sepNN (List.replicate 90 wBlock)).length ∧
    (joinWith sepNN ((List.replicate 90 wBlock).map truncBlock)).length ≤ MAX_DIFF_LENGTH ∧
    truncateDiffs (List.replicate 90 wBlock) =
      joinWith sepNN ((List.replicate 90 wBlock).map truncBlock) := by
  have hb : wBlock.length = 306 := by decide
  have htb : (truncBlock wBlock).length = 222 := by decide
  have hover : MAX_DIFF_LENGTH < (joinWith sepNN (List.replicate 90 wBlock)).length := by
    rw [show (90 : Nat) = 89 + 1 from rfl, joinWith_length_replicate, hb]
    decide
  have htr : (joinWith sepNN ((List.replicate 90 wBlock).map truncBlock)).length ≤
      MAX_DIFF_LENGTH := by
    rw [List.map_replicate]
    rw [show (90 : Nat) = 89 + 1 from rfl, joinWith_length_replicate, htb]
    decide
  exact ⟨hover, htr, (truncateDiffs_tier2_within_ceiling _ hover htr).1⟩

/-! ### C10 -/

theorem replFirst_append_self (pat rest : Str) : replFirst pat (pat ++ rest) = rest := by
  cases pat with
  | nil =>
    cases rest with
    | nil => rfl
    | cons c cs =>
      unfold replFirst
      simp [List.isPrefixOf]
  | cons p ps =>
    rw [List.cons_append]
    unfold replFirst
    have hpre : (p :: ps).isPrefixOf (p :: (ps ++ rest)) = true := by
      rw [ List.isPrefixOf_iff_prefix, ← List.cons_append]
      exact List.prefix_append _ _
    rw [hpre]
    rw [if_pos rfl, ← List.cons_append, List.drop_left]

theorem replFirst_first_occurrence (pat a b : Str)
    (h : ∀ i, i < a.length → ¬ pat <+: ((a ++ pat ++ b).drop i)) :
    replFirst pat (a ++ pat ++ b) = a ++ b := by
  induction a with
  | nil => simpa using replFirst_append_self pat b
  | cons c cs ih =>
    have hstep : ∀ i, i < cs.length → ¬ pat <+: ((cs ++ pat ++ b).drop i) := by
      intro i hi
      have := h (i + 1) (by simpa using Nat.succ_lt_succ hi)
      simpa using this
    have hnp : pat.isPrefixOf (c :: (cs ++ (pat ++ b))) = false := by
      have h0 := h 0 (by simp)
      rw [List.drop_zero] at h0
      rw [← Bool.not_eq_true, List.isPrefixOf_iff_prefix]
      simpa using h0
    rw [List.append_assoc, List.cons_append]
    unfold replFirst
    rw [hnp]
    rw [if_neg (by simp)]
    have := ih hstep
    rw [List.append_assoc] at this
    rw [this]
    rw [List.cons_append]

/-- C10: `parseGitHubUrl` removes exactly the first occurrence of `.git`
from the final path segment, wherever it occurs - for a URL whose last
segment is `a ++ ".git" ++ b` with no earlier occurrence, the returned
repo is `a ++ b`, keeping any later occurrences inside `b`. -/
theorem parseGitHubUrl_removes_first_dotgit (owner a b : Str)
    (how : '/' ∉ owner) (ha : '/' ∉ a) (hb : '/' ∉ b)
    (hfirst : ∀ i, i < a.length → ¬ dotGit <+: ((a ++ dotGit ++ b).drop i)) :
    parseGitHubUrl (ghPrefix ++ (owner ++ '/' :: (a ++ dotGit ++ b))) =
      { owner := some owner, repo := a ++ b } := by
  have hdg : ('/' : Char) ∉ dotGit := by decide
  have hsl : ('/' : Char) ∉ a ++ dotGit ++ b := by
    rw [List.append_assoc]
    intro hm
    rcases List.mem_append.mp hm with hm1 | hm2
    · exact ha hm1
    · rcases List.mem_append.mp hm2 with hm3 | hm4
      · exact hdg hm3
      · exact hb hm4
  unfold parseGitHubUrl
  rw [replFirst_append_self]
  rw [splitOnChar_append_sep '/' owner _ how]
  rw [splitOnChar_no_sep '/' _ hsl]
  dsimp only
  rw [show List.getLastD [owner, a ++ dotGit ++ b] [] = a ++ dotGit ++ b from rfl]
  rw [replFirst_first_occurrence dotGit a b hfirst]
  rfl

/-- C10 witness: the URL for a repository named `my.gitrepo` parses to
repo `myrepo` - the interior `.git` is removed. -/
theorem parseGitHubUrl_removes_first_dotgit_witness :
    parseGitHubUrl (ghPrefix ++ (("greptileai").data ++ '/' ::
        (("my").data ++ dotGit ++ ("repo").data))) =
      { owner := some (("greptileai").data), repo := ("my").data ++ ("repo").data } :=
  parseGitHubUrl_removes_first_dotgit (("greptileai").data) (("my").data) (("repo").data)
    (by decide) (by decide) (by decide) (by decide)

/-! ### C9 -/

theorem substrHeadAppend (x r : Str) : x <:+: x ++ r := ⟨[], r, by simp⟩

theorem substrExtendLeft (x l m : Str) (h : x <:+: m) : x <:+: l ++ m := by
  obtain ⟨s, t, hst⟩ := h
  exact ⟨l ++ s, t, by rw [← hst]; simp [List.append_assoc]⟩

/-- C9: with neither provider enabled and the joined diff text under the
truncation ceiling, the revision with the mock variant returns the
templated preview - containing the rendered `additions`, `deletions`,
`netDiff` and `totalCommits` values and the (untruncated) sample text -
without invoking any provider backend. -/
theorem generateChangelogV2_none_preview (cfg : RunCfg) (pages : List PageResp)
    (startStr endStr : Str)
    (hg : cfg.env.enableGreptile = false) (ho : cfg.env.enableOpenai = false)
    (hlen : (joinWith sepNN (getRepoDiff pages startStr endStr).diffs).length ≤
      MAX_DIFF_LENGTH) :
    ∃ c, generateChangelogV2 cfg pages startStr endStr = Except.ok (c, false) ∧
      natToStr (getRepoDiff pages startStr endStr).additions <:+: c ∧
      natToStr (getRepoDiff pages startStr endStr).deletions <:+: c ∧
      intToStr (getRepoDiff pages startStr endStr).netDiff <:+: c ∧
      natToStr (getRepoDiff pages startStr endStr).totalCommits <:+: c ∧
      (joinWith sepNN (getRepoDiff pages startStr endStr).diffs).take 1000 <:+: c := by
  have htd : truncateDiffs (getRepoDiff pages startStr endStr).diffs =
      joinWith sepNN (getRepoDiff pages startStr endStr).diffs := by
    unfold truncateDiffs
    dsimp only
    rw [if_pos hlen]
  have hprov : llmProviderV2 cfg.env = ProviderV2.noneP := by
    simp [llmProviderV2, hg, ho]
  refine ⟨(if (getRepoDiff pages startStr endStr).hasMore then warningText else []) ++
      previewTemplate startStr endStr (getRepoDiff pages startStr endStr)
        (joinWith sepNN (getRepoDiff pages startStr endStr).diffs), ?_, ?_, ?_, ?_, ?_, ?_⟩
  · unfold generateChangelogV2
    dsimp only
    rw [hprov, htd]
  all_goals
    unfold previewTemplate
    simp only [List.append_assoc]
    repeat
      first
      | exact substrHeadAppend _ _
      | apply substrExtendLeft

/-- C9 witness: on the concrete mocked page stream with no provider
enabled, the preview run applies, its hypotheses holding by computation. -/
theorem generateChangelogV2_none_preview_witness :
    (joinWith sepNN (getRepoDiff c9pages (("2024-01-01").data)
        (("2024-01-31").data)).diffs).length ≤ MAX_DIFF_LENGTH ∧
    (∃ c, generateChangelogV2 c9cfg c9pages (("2024-01-01").data) (("2024-01-31").data) =
        Except.ok (c, false) ∧
      natToStr (getRepoDiff c9pages (("2024-01-01").data)
        (("2024-01-31").data)).additions <:+: c ∧
      natToStr (getRepoDiff c9pages (("2024-01-01").data)
        (("2024-01-31").data)).deletions <:+: c ∧
      intToStr (getRepoDiff c9pages (("2024-01-01").data)
        (("2024-01-31").data)).netDiff <:+: c ∧
      natToStr (getRepoDiff c9pages (("2024-01-01").data)
        (("2024-01-31").data)).totalCommits <:+: c ∧
      (joinWith sepNN (getRepoDiff c9pages (("2024-01-01").data)
        (("2024-01-31").data)).diffs).take 1000 <:+: c) :=
  ⟨by decide,
   generateChangelogV2_none_preview c9cfg c9pages (("2024-01-01").data)
     (("2024-01-31").data) rfl rfl (by decide)⟩

end Gramphibian
